import Mathlib

/-!
Verification of the airline-chatbot core (intent detection, conversation
context / reference resolution, parameter extraction, retrieval filtering)
against its natural-language specification.

The Python sources are shallowly embedded as executable Lean definitions.
Strings are handled as `List Char` (the ASCII fragment relevant to the
embedded code paths); Python's `re` calls on the fixed patterns appearing
in the source are embedded as explicit scanning functions with the same
leftmost-match, greedy semantics on those patterns.
-/

namespace Chatbot

/-! ### Character-level primitives (Python `str` methods, ASCII fragment) -/

/-- Python `str.isdigit` / regex `\d` on an ASCII character. -/
def pyIsDigit (c : Char) : Bool := 48 ≤ c.toNat && c.toNat ≤ 57

/-- Python whitespace (regex `\s`), ASCII fragment. -/
def pyIsSpace (c : Char) : Bool :=
  c = ' ' || c = '\t' || c = '\n' || c = '\r' || c = '\x0b' || c = '\x0c'

/-- `[A-Z]`. -/
def pyIsUpperAlpha (c : Char) : Bool := 65 ≤ c.toNat && c.toNat ≤ 90

/-- `[a-z]`. -/
def pyIsLowerAlpha (c : Char) : Bool := 97 ≤ c.toNat && c.toNat ≤ 122

/-- Regex word character `\w` (ASCII fragment): letter, digit or underscore. -/
def pyIsWordChar (c : Char) : Bool :=
  pyIsUpperAlpha c || pyIsLowerAlpha c || pyIsDigit c || c = '_'

/-- Python `str.lower()` on one character (ASCII letters; others unchanged). -/
def pyLowerChar : Char → Char
  | 'A' => 'a' | 'B' => 'b' | 'C' => 'c' | 'D' => 'd' | 'E' => 'e' | 'F' => 'f'
  | 'G' => 'g' | 'H' => 'h' | 'I' => 'i' | 'J' => 'j' | 'K' => 'k' | 'L' => 'l'
  | 'M' => 'm' | 'N' => 'n' | 'O' => 'o' | 'P' => 'p' | 'Q' => 'q' | 'R' => 'r'
  | 'S' => 's' | 'T' => 't' | 'U' => 'u' | 'V' => 'v' | 'W' => 'w' | 'X' => 'x'
  | 'Y' => 'y' | 'Z' => 'z'
  | c => c

/-- Python `str.upper()` on one character (ASCII letters; others unchanged). -/
def pyUpperChar : Char → Char
  | 'a' => 'A' | 'b' => 'B' | 'c' => 'C' | 'd' => 'D' | 'e' => 'E' | 'f' => 'F'
  | 'g' => 'G' | 'h' => 'H' | 'i' => 'I' | 'j' => 'J' | 'k' => 'K' | 'l' => 'L'
  | 'm' => 'M' | 'n' => 'N' | 'o' => 'O' | 'p' => 'P' | 'q' => 'Q' | 'r' => 'R'
  | 's' => 'S' | 't' => 'T' | 'u' => 'U' | 'v' => 'V' | 'w' => 'W' | 'x' => 'X'
  | 'y' => 'Y' | 'z' => 'Z'
  | c => c

/-- Python `str.lower()`. -/
def pyLower (s : List Char) : List Char := s.map pyLowerChar

/-- Python `str.upper()`. -/
def pyUpper (s : List Char) : List Char := s.map pyUpperChar

/-- Python `needle in hay` substring test (`""` is contained in anything). -/
def containsSub (needle : List Char) : List Char → Bool
  | [] => needle.isEmpty
  | c :: t => needle.isPrefixOf (c :: t) || containsSub needle t

/-- Python `hay.find(needle)`: position of first occurrence, if any. -/
def firstOccur (needle : List Char) : List Char → Option Nat
  | [] => if needle.isEmpty then some 0 else none
  | c :: t =>
    if needle.isPrefixOf (c :: t) then some 0
    else (firstOccur needle t).map (· + 1)

/-- Python `str.strip()`: remove leading and trailing whitespace. -/
def pyStrip (s : List Char) : List Char :=
  ((s.dropWhile pyIsSpace).reverse.dropWhile pyIsSpace).reverse

/-! ### Data model (`flight_data/context_manager.py`) -/

/-- `IntentType` enum. -/
inductive IntentType where
  | FLIGHT_SEARCH
  | POLICY_QUESTION
  | GENERAL_CHAT
  | UNKNOWN
deriving DecidableEq, Repr

/-- `IntentType.<member>.value`. -/
def IntentType.value : IntentType → String
  | .FLIGHT_SEARCH => "flight_search"
  | .POLICY_QUESTION => "policy_question"
  | .GENERAL_CHAT => "general_chat"
  | .UNKNOWN => "unknown"

/-- A flight-result dictionary, restricted to the keys the context manager
reads (`flight.get("departure_time", "")`, `flight.get("flight_number")`).
The mock generators always populate both keys. -/
structure Flight where
  flight_number : String
  departure_time : String
deriving DecidableEq, Repr

instance : Inhabited Flight := ⟨⟨"", ""⟩⟩

/-- Extra parameters are modelled as association lists (Python dicts). -/
abbrev PyDict := List (String × String)

/-- `Message` dataclass.  The `timestamp` (Python `datetime.now()`) is an
external effect, modelled as a `Nat` supplied by the caller of
`add_message`. -/
structure Message where
  role : String
  content : String
  intent : Option IntentType := none
  parameters : Option PyDict := none
  timestamp : Nat := 0
deriving DecidableEq, Repr

/-- The staged `current_flight_search` record. -/
structure CurrentSearch where
  search_params : PyDict
  results : List Flight
deriving DecidableEq, Repr

/-- `ConversationContext` mutable state. -/
structure ConversationContext where
  session_id : String := "default"
  max_history : Nat := 10
  history : List Message := []
  current_flight_search : Option CurrentSearch := none
  last_intent : Option IntentType := none
  last_parameters : Option PyDict := none
  last_flight_results : List Flight := []
deriving DecidableEq, Repr

/-- Python list slice `l[-k:]` (note `l[-0:]` is the whole list: `-0 == 0`). -/
def pySliceLast (k : Nat) (l : List α) : List α :=
  if k = 0 then l else l.drop (l.length - k)

/-- Python truthiness of an optional dict: `None` and `{}` are falsy. -/
def pyTruthyDict : Option PyDict → Bool
  | none => false
  | some d => !d.isEmpty

/-- `ConversationContext.add_message` (lines 73-110): append the new
message, trim the history to `max_history` via `history[-max_history:]`,
and, when an intent is given, update the last-intent state and stage a
current flight search for `FLIGHT_SEARCH` intents with truthy parameters. -/
def addMessage (ctx : ConversationContext) (role content : String)
    (intent : Option IntentType) (parameters : Option PyDict)
    (now : Nat := 0) : ConversationContext :=
  let message : Message :=
    { role := role, content := content, intent := intent,
      parameters := parameters, timestamp := now }
  let history := ctx.history ++ [message]
  let history :=
    if history.length > ctx.max_history then pySliceLast ctx.max_history history
    else history
  match intent with
  | none => { ctx with history := history }
  | some i =>
    let ctx' : ConversationContext :=
      { ctx with
        history := history
        last_intent := some i
        last_parameters := parameters }
    if i = .FLIGHT_SEARCH ∧ pyTruthyDict parameters then
      let staged : CurrentSearch :=
        { search_params := parameters.getD [], results := [] }
      { ctx' with current_flight_search := some staged }
    else ctx'

/-! ### Reference resolution (`resolve_reference`, lines 125-221)

The three fixed regexes used by `resolve_reference` are embedded as
scanning functions with Python `re.search` semantics (leftmost match,
greedy quantifiers) specialised to those patterns. -/

/-- Group 1 of `re.search(r"(\d{1,2}):?(\d{2})?\s*(?:am|pm)?", s)`.
Every part of the pattern after `\d{1,2}` can match the empty string, so a
match exists iff `s` contains a digit, the match starts at the first digit
and group 1 is the greedy one-or-two digit run starting there. -/
def pyTimeHour : List Char → Option (List Char)
  | [] => none
  | c :: t =>
    if pyIsDigit c then
      match t with
      | d :: _ => if pyIsDigit d then some [c, d] else some [c]
      | [] => some [c]
    else pyTimeHour t

/-- Helper for the flight-number regex: `\s*\d+` with greedy runs,
returning the matched text. -/
def spacesThenDigits (s : List Char) : Option (List Char) :=
  let sp := s.takeWhile pyIsSpace
  let rest := s.drop sp.length
  let ds := rest.takeWhile pyIsDigit
  if ds.isEmpty then none else some (sp ++ ds)

/-- Attempt of `(?:AI|AIX)\s*\d+` at the head of `s` (alternation tries
`AI` first, then `AIX`), returning group 0. -/
def flightNumMatchAt (s : List Char) : Option (List Char) :=
  match s with
  | 'A' :: 'I' :: rest =>
    match spacesThenDigits rest with
    | some m => some ('A' :: 'I' :: m)
    | none =>
      match rest with
      | x :: rest' =>
        if x = 'X' then
          match spacesThenDigits rest' with
          | some m => some ('A' :: 'I' :: 'X' :: m)
          | none => none
        else none
      | [] => none
  | _ => none

/-- `re.search(r"(?:AI|AIX)\s*\d+", s)`: leftmost match, group 0. -/
def pyFlightNumSearch : List Char → Option (List Char)
  | [] => none
  | c :: t =>
    match flightNumMatchAt (c :: t) with
    | some m => some m
    | none => pyFlightNumSearch t

/-- The `ordinal_map` dict, in insertion order; `-1` indices as `Int`. -/
def ordinalMap : List (String × Int) :=
  [("first", 0), ("second", 1), ("third", 2), ("fourth", 3), ("fifth", 4),
   ("last", -1), ("previous", -1)]

/-- The `for ordinal, index in ordinal_map.items()` loop: first ordinal
word occurring in the message that yields an in-range flight (out-of-range
ordinals `continue`). -/
def ordinalLookup (message_lower : List Char) (results : List Flight) :
    List (String × Int) → Option (String × Flight)
  | [] => none
  | (ordinal, index) :: rest =>
    if containsSub ordinal.toList message_lower then
      if h : 0 ≤ index ∧ index.toNat < results.length then
        some (ordinal, results.get ⟨index.toNat, h.2⟩)
      else if index = -1 ∧ !results.isEmpty then
        some (ordinal, results.getLast!)
      else ordinalLookup message_lower results rest
    else ordinalLookup message_lower results rest

/-- The `generic_refs` list. -/
def genericRefs : List String := ["that", "it", "this", "the flight"]

/-- Result dictionary of `resolve_reference`; keys that a branch does not
set are `none`. -/
structure Resolved where
  has_reference : Bool := false
  reference_type : Option String := none
  referenced_flight : Option Flight := none
  flight_number : Option String := none
  departure_time : Option String := none
  ordinal : Option String := none
deriving DecidableEq, Repr

/-- `ConversationContext.resolve_reference` (lines 125-221): strict
waterfall over time, ordinal, flight-number and generic references. -/
def resolveReference (ctx : ConversationContext) (current_message : String) :
    Resolved :=
  let message_lower := pyLower current_message.toList
  let results := ctx.last_flight_results
  let base : Resolved := {}
  if results.isEmpty then base
  else
    -- step 5: generic reference
    let genericStep : Resolved :=
      if genericRefs.any (fun r => containsSub r.toList message_lower) then
        if !results.isEmpty then
          let flight := results.head!
          { has_reference := true, reference_type := some "generic",
            referenced_flight := some flight,
            flight_number := some flight.flight_number }
        else base
      else base
    -- step 4: flight-number reference
    let flightNumStep : Resolved :=
      match pyFlightNumSearch (pyUpper current_message.toList) with
      | some m =>
        let flight_num := String.mk m
        match results.find? (fun f => f.flight_number = flight_num) with
        | some flight =>
          { has_reference := true, reference_type := some "flight_number",
            referenced_flight := some flight,
            flight_number := some flight_num }
        | none => genericStep
      | none => genericStep
    -- step 3: ordinal reference
    let ordinalStep : Resolved :=
      match ordinalLookup message_lower results ordinalMap with
      | some (ordinal, flight) =>
        { has_reference := true, reference_type := some "ordinal",
          referenced_flight := some flight,
          flight_number := some flight.flight_number,
          ordinal := some ordinal }
      | none => flightNumStep
    -- step 2: time reference
    match pyTimeHour message_lower with
    | some hour =>
      match results.find?
          (fun f => hour.isPrefixOf f.departure_time.toList) with
      | some flight =>
        { has_reference := true, reference_type := some "time",
          referenced_flight := some flight,
          flight_number := some flight.flight_number,
          departure_time := some flight.departure_time }
      | none => ordinalStep
    | none => ordinalStep

/-! ### Concrete fixtures for reference-resolution claims -/

/-- F0 of the claims: a flight departing at the simulator's `"09:30"` slot. -/
def flight0930 : Flight := { flight_number := "AI 101", departure_time := "09:30" }

/-- F1 of the claims: a flight departing at `"12:15"`. -/
def flight1215 : Flight := { flight_number := "AI 202", departure_time := "12:15" }

/-- A context whose `last_flight_results` is `[F0, F1]`. -/
def ctxTwoFlights : ConversationContext :=
  { last_flight_results := [flight0930, flight1215] }

/-! ### Parameter extraction (`flight_data/utils.py`, `flight_data/constants.py`) -/

/-- `INVALID_IATA_CODES` (constants.py lines 121-125). -/
def INVALID_IATA_CODES : List String :=
  ["THE", "AND", "FOR", "YOU", "CAN", "GET", "AIR", "IND", "ALL", "ANY",
   "ONE", "TWO", "SIX", "TEN", "FLY", "NOW", "DAY", "WEEK", "NEXT", "YES"]

/-- Keys of `AIRPORTS` after the module-level merge of
`ADDITIONAL_AIRPORTS` (constants.py lines 10-41 and 216-252), paired with
each airport's `"city"` entry. -/
def AIRPORTS : List (String × String) :=
  [("DEL", "Delhi"), ("BOM", "Mumbai"), ("BLR", "Bangalore"),
   ("MAA", "Chennai"), ("HYD", "Hyderabad"), ("CCU", "Kolkata"),
   ("GOI", "Goa"), ("AMD", "Ahmedabad"), ("PNQ", "Pune"), ("JAI", "Jaipur")]

/-- `CITY_TO_IATA` (constants.py lines 180-213), in insertion order. -/
def CITY_TO_IATA : List (String × String) :=
  [("delhi", "DEL"), ("new delhi", "DEL"), ("mumbai", "BOM"),
   ("bombay", "BOM"), ("bangalore", "BLR"), ("bengaluru", "BLR"),
   ("chennai", "MAA"), ("madras", "MAA"), ("hyderabad", "HYD"),
   ("kolkata", "CCU"), ("calcutta", "CCU"), ("goa", "GOI"),
   ("ahmedabad", "AMD"), ("pune", "PNQ"), ("jaipur", "JAI"),
   ("lucknow", "LKO"), ("kochi", "COK"), ("guwahati", "GAU"),
   ("new york", "JFK"), ("london", "LHR"), ("dubai", "DXB"),
   ("singapore", "SIN"), ("tokyo", "NRT"), ("sydney", "SYD"),
   ("toronto", "YYZ"), ("paris", "CDG"), ("frankfurt", "FRA"),
   ("hong kong", "HKG"), ("bangkok", "BKK")]

/-- `is_valid_iata_code` (utils.py lines 50-78): length three, alphabetic,
uppercase, not a stop-word, and a known airport. -/
def isValidIataCode (code : List Char) : Bool :=
  !code.isEmpty && code.length = 3 && code.all pyIsUpperAlpha &&
  !INVALID_IATA_CODES.contains (String.mk code) &&
  (AIRPORTS.map Prod.fst).contains (String.mk code)

/-- True when the scan position sits at a regex word boundary against the
previous character (`none` = start of string). -/
def boundaryBefore : Option Char → Bool
  | none => true
  | some c => !pyIsWordChar c

/-- True when the character after a candidate match (head of the remaining
input, if any) is not a word character. -/
def boundaryAfter : List Char → Bool
  | [] => true
  | c :: _ => !pyIsWordChar c

/-- `re.findall(r"\b[A-Z]{3}\b", text)`: all three-uppercase-letter words.
`prev` is the character preceding the scan position.  Because `[A-Z]` are
word characters, matches cannot overlap, so the linear scan coincides with
`findall`'s left-to-right non-overlapping semantics. -/
def iataScan (prev : Option Char) : List Char → List (List Char)
  | c1 :: c2 :: c3 :: rest =>
    if boundaryBefore prev && pyIsUpperAlpha c1 && pyIsUpperAlpha c2 &&
       pyIsUpperAlpha c3 && boundaryAfter rest then
      [c1, c2, c3] :: iataScan (some c3) rest
    else iataScan (some c1) (c2 :: c3 :: rest)
  | [c1, c2] => iataScan (some c1) [c2]
  | [_] => []
  | [] => []

/-- `extract_iata_codes` (utils.py lines 142-162): uppercase the text, find
all candidate codes, validate them, and return the first two valid codes or
`(None, None)`. -/
def extractIataCodes (text : List Char) : Option String × Option String :=
  let text_upper := pyUpper text
  let potential_codes := iataScan none text_upper
  let valid_codes := potential_codes.filter isValidIataCode
  match valid_codes with
  | c0 :: c1 :: _ => (some (String.mk c0), some (String.mk c1))
  | _ => (none, none)

/-- Entry of the `found_cities` list: `(position, city_name, iata_code)`. -/
structure FoundCity where
  position : Nat
  city : String
  code : String
deriving DecidableEq, Repr

/-- Stable insertion for `found_cities.sort(key=lambda x: x[0])`: the new
element (earlier in dict order) goes before later elements with an equal
key, matching Python's stable sort. -/
def insertByPos (x : FoundCity) : List FoundCity → List FoundCity
  | [] => [x]
  | y :: t => if x.position ≤ y.position then x :: y :: t else y :: insertByPos x t

/-- Stable sort by text position. -/
def sortByPos : List FoundCity → List FoundCity
  | [] => []
  | x :: t => insertByPos x (sortByPos t)

/-- `extract_city_names` (utils.py lines 184-224): collect the cities of
`CITY_TO_IATA` occurring as substrings of the lowercased text with their
first position, sort by position, and take the first two codes. -/
def extractCityNames (text : List Char) : Option String × Option String :=
  if text.isEmpty then (none, none)
  else
    let text_lower := pyLower text
    let found_cities :=
      CITY_TO_IATA.filterMap (fun p =>
        match firstOccur p.1.toList text_lower with
        | some pos => some { position := pos, city := p.1, code := p.2 }
        | none => none)
    match sortByPos found_cities with
    | f0 :: f1 :: _ => (some f0.code, some f1.code)
    | [f0] => (some f0.code, none)
    | [] => (none, none)

/-- Leftmost match of `re.search(r"(\d+)\s+(?:passenger|person|people|adult)", s)`,
returning group 1 as a digit string.  At each digit position the greedy
digit run is taken, then at least one whitespace, then one of the literal
alternatives (prefix match, as in the pattern). -/
def passengerMatchAt (s : List Char) : Option (List Char) :=
  let ds := s.takeWhile pyIsDigit
  if ds.isEmpty then none
  else
    let rest := s.drop ds.length
    let sp := rest.takeWhile pyIsSpace
    if sp.isEmpty then none
    else
      let rest' := rest.drop sp.length
      if ("passenger".toList.isPrefixOf rest' || "person".toList.isPrefixOf rest' ||
          "people".toList.isPrefixOf rest' || "adult".toList.isPrefixOf rest') then
        some ds
      else none

/-- Scan of the passenger regex over the whole (lowercased) text. -/
def pyPassengerSearch : List Char → Option (List Char)
  | [] => none
  | c :: t =>
    match passengerMatchAt (c :: t) with
    | some m => some m
    | none => pyPassengerSearch t

/-- Python `int(...)` on a digit string. -/
def digitsToNat (ds : List Char) : Nat :=
  ds.foldl (fun acc c => acc * 10 + (c.toNat - 48)) 0

/-- `SearchParameters` produced by `extract_flight_parameters`; the Python
dict key `"class"` is rendered as `travel_class`.  `raw_message` is the key
added on top by `IntentDetector._extract_flight_parameters`. -/
structure SearchParameters where
  origin : Option String := none
  destination : Option String := none
  origin_city : Option String := none
  destination_city : Option String := none
  date : String := "tomorrow"
  passengers : Nat := 1
  travel_class : String := "economy"
  raw_message : String := ""
deriving DecidableEq, Repr

/-- `AIRPORTS.get(code, {}).get("city", code)`. -/
def airportCity (code : String) : String :=
  match AIRPORTS.find? (fun p => p.1 = code) with
  | some p => p.2
  | none => code

/-- Steps 1-2 of `extract_flight_parameters` (utils.py lines 250-257):
IATA codes first, falling back to city names when either endpoint is
missing. -/
def extractRoutePair (text : List Char) : Option String × Option String :=
  let (origin_iata, dest_iata) := extractIataCodes text
  if !origin_iata.isSome || !dest_iata.isSome then
    match extractCityNames text with
    | (some oc, some dc) => (some oc, some dc)
    | _ => (origin_iata, dest_iata)
  else (origin_iata, dest_iata)

/-- Step 3 (lines 259-264): assign origin/destination only when both
endpoints are present; otherwise the defaults (both null) stand. -/
def assignRoute (pair : Option String × Option String) : SearchParameters :=
  let base : SearchParameters := {}
  match pair with
  | (some o, some d) =>
    { base with
      origin := some o
      destination := some d
      origin_city := some (airportCity o)
      destination_city := some (airportCity d) }
  | _ => base

/-- Step 4 (lines 266-272): literal date tokens in the lowercased text. -/
def applyDate (text_lower : List Char) (params : SearchParameters) :
    SearchParameters :=
  if containsSub "today".toList text_lower then { params with date := "today" }
  else if containsSub "tomorrow".toList text_lower then { params with date := "tomorrow" }
  else if containsSub "next week".toList text_lower then { params with date := "next_week" }
  else params

/-- Step 5 (lines 274-282): the passenger count is assigned only when the
matched number already lies in `1..9`; otherwise the default is kept. -/
def applyPassengers (text_lower : List Char) (params : SearchParameters) :
    SearchParameters :=
  match pyPassengerSearch text_lower with
  | some ds =>
    if 1 ≤ digitsToNat ds ∧ digitsToNat ds ≤ 9 then
      { params with passengers := digitsToNat ds }
    else params
  | none => params

/-- `extract_flight_parameters` (utils.py lines 227-285), as the
sequential composition of its steps. -/
def extractFlightParameters (text : String) : SearchParameters :=
  let l := text.toList
  let text_lower := pyLower l
  applyPassengers text_lower (applyDate text_lower (assignRoute (extractRoutePair l)))

/-! ### Intent detection (`core/intent_detector.py`)

The two compiled pattern banks (`FLIGHT_PATTERNS`, `POLICY_PATTERNS`) and
`_count_keywords` over the three keyword lists invoke Python's general
`re` engine on arbitrary input; their outcomes are abstracted as an
explicit signal record, so the detector's theorems quantify over every
possible outcome of those external searches.  All other tests
(`"baggage" in message_lower`, `extract_iata_codes`, the context
reference) are embedded directly. -/

/-- Outcomes of the external regex/keyword scans for one message:
whether any `FLIGHT_PATTERNS` (resp. `POLICY_PATTERNS`) regex matches, and
the three `_count_keywords` scores (counts of distinct matched keywords). -/
structure DetectSignals where
  flight_pattern_hit : Bool
  policy_pattern_hit : Bool
  flight_score : Nat
  policy_score : Nat
  greeting_score : Nat
deriving DecidableEq, Repr

/-- Parameters payload of an intent response: empty dict, extracted search
parameters, or a reference-resolution payload. -/
inductive ResponseParams where
  | empty
  | flight (p : SearchParameters)
  | reference (r : Resolved)
deriving DecidableEq, Repr

/-- `parameters.get("raw_message", "")`. -/
def ResponseParams.rawMessage : ResponseParams → String
  | .flight p => p.raw_message
  | _ => ""

/-- `IntentDetector._build_response` (lines 280-305).  The `timestamp`
(`datetime.now().isoformat()`) is an external effect and is omitted;
`round(confidence, 3)` is the identity on every constant the detector
passes, so the confidence is stored exactly. -/
structure IntentResponse where
  intent : String
  confidence : ℚ
  parameters : ResponseParams
  raw_message : String
  reason : String
  success : Bool
deriving DecidableEq, Repr

/-- Build the standardized response dictionary. -/
def buildResponse (intent : IntentType) (confidence : ℚ)
    (parameters : ResponseParams) (reason : String) : IntentResponse :=
  { intent := intent.value
    confidence := confidence
    parameters := parameters
    raw_message := parameters.rawMessage
    reason := reason
    success := true }

/-- The safety contract of `detect_intent`: confidence within `[0, 1]`,
intent drawn from the closed enum, and a successfully populated response. -/
def wellFormedResponse (r : IntentResponse) : Prop :=
  (0 ≤ r.confidence ∧ r.confidence ≤ 1) ∧
  (r.intent = "flight_search" ∨ r.intent = "policy_question" ∨
    r.intent = "general_chat" ∨ r.intent = "unknown") ∧
  r.success = true

/-- `IntentDetector._extract_flight_parameters` (lines 224-242): extraction
plus the `raw_message` field. -/
def detectorExtract (message : String) : SearchParameters :=
  { extractFlightParameters message with raw_message := message }

/-- STEP 6 of `detect_intent` (lines 216-222): the general-chat default. -/
def detectStep6 : IntentResponse :=
  buildResponse .GENERAL_CHAT 0.30 .empty "default"

/-- STEP 5 (lines 205-210): optional LLM fallback.  `_llm_intent_fallback`
always returns `None` (lines 265-278), so both branches fall through. -/
def detectStep5 (use_llm_fallback : Bool) : IntentResponse :=
  if use_llm_fallback then detectStep6 else detectStep6

/-- STEP 4 (lines 189-199): IATA codes even without flight keywords. -/
def detectStep4 (use_llm_fallback : Bool) (message : String) : IntentResponse :=
  match extractIataCodes message.toList with
  | (some _, some _) =>
    buildResponse .FLIGHT_SEARCH 0.70 (.flight (detectorExtract message))
      "iata_codes_only"
  | _ => detectStep5 use_llm_fallback

/-- STEP 3, Rule 4 (lines 176-183): baggage without flight context. -/
def detectRule4 (sig : DetectSignals) (use_llm_fallback : Bool)
    (message : String) (message_lower : List Char) : IntentResponse :=
  if (containsSub "baggage".toList message_lower ||
      containsSub "luggage".toList message_lower) && sig.flight_score = 0 then
    buildResponse .POLICY_QUESTION 0.85 .empty "baggage_only"
  else detectStep4 use_llm_fallback message

/-- STEP 3, Rule 3 (lines 166-173): policy keywords. -/
def detectRule3 (sig : DetectSignals) (use_llm_fallback : Bool)
    (message : String) (message_lower : List Char) : IntentResponse :=
  if sig.policy_score ≥ 2 then
    buildResponse .POLICY_QUESTION 0.80 .empty "policy_keywords"
  else detectRule4 sig use_llm_fallback message message_lower

/-- STEP 3, Rule 2 (lines 146-163): flight keywords, with extra confidence
when a full origin/destination pair was extracted. -/
def detectRule2 (sig : DetectSignals) (use_llm_fallback : Bool)
    (message : String) (message_lower : List Char) : IntentResponse :=
  if sig.flight_score ≥ 2 then
    if (detectorExtract message).origin.isSome &&
       (detectorExtract message).destination.isSome then
      buildResponse .FLIGHT_SEARCH 0.89 (.flight (detectorExtract message))
        "flight_keywords_with_codes"
    else
      buildResponse .FLIGHT_SEARCH 0.75 (.flight (detectorExtract message))
        "flight_keywords_no_codes"
  else detectRule3 sig use_llm_fallback message message_lower

/-- STEP 3, Rule 1 (lines 136-143): pure greeting. -/
def detectRule1 (sig : DetectSignals) (use_llm_fallback : Bool)
    (message : String) (message_lower : List Char) : IntentResponse :=
  if sig.greeting_score ≥ 1 && sig.flight_score = 0 && sig.policy_score = 0 then
    buildResponse .GENERAL_CHAT 0.90 .empty "greeting"
  else detectRule2 sig use_llm_fallback message message_lower

/-- STEP 2 (lines 112-122): context-aware detection, consulting
`resolve_reference` when the previous intent was a flight search. -/
def detectStep2 (sig : DetectSignals) (use_llm_fallback : Bool)
    (context : Option ConversationContext) (message : String)
    (message_lower : List Char) : IntentResponse :=
  match context with
  | some ctx =>
    if ctx.last_intent = some .FLIGHT_SEARCH then
      if (resolveReference ctx message).has_reference then
        buildResponse .FLIGHT_SEARCH 0.88 (.reference (resolveReference ctx message))
          "context_reference"
      else detectRule1 sig use_llm_fallback message message_lower
    else detectRule1 sig use_llm_fallback message message_lower
  | none => detectRule1 sig use_llm_fallback message message_lower

/-- `IntentDetector.detect_intent` (lines 58-222), with the external regex
outcomes supplied by `sig`; each fall-through stage of the source's
decision waterfall is the correspondingly named `detect*` function. -/
def detectIntent (sig : DetectSignals) (use_llm_fallback : Bool)
    (context : Option ConversationContext) (user_message : String) :
    IntentResponse :=
  if user_message.toList.isEmpty || (pyStrip user_message.toList).isEmpty then
    buildResponse .GENERAL_CHAT 0.1 .empty "empty_message"
  else
    let message := String.mk (pyStrip user_message.toList)
    let message_lower := pyLower message.toList
    -- STEP 1: pattern-based detection
    if sig.flight_pattern_hit then
      buildResponse .FLIGHT_SEARCH 0.95 (.flight (detectorExtract message)) "flight_pattern"
    else if sig.policy_pattern_hit then
      buildResponse .POLICY_QUESTION 0.92 .empty "policy_pattern"
    else detectStep2 sig use_llm_fallback context message message_lower

/-! ### Retrieval filtering (`rag/rag_handler.py`, `SimpleRAGHandler`) -/

/-- Document metadata; `none` models an absent dict key, so each
`metadata.get(key, default)` call site applies its own default. -/
structure DocMetadata where
  countries_mentioned : Option String := none
  content_type : Option String := none
  filename : Option String := none
deriving DecidableEq, Repr

/-- A LangChain `Document` as consumed by the handler. -/
structure Document where
  page_content : String := ""
  metadata : DocMetadata := {}
deriving DecidableEq, Repr

/-- `self.country_patterns` (lines 61-73): each regex `\b...\b` is a
literal phrase between word boundaries, recorded here as the phrase. -/
def countryPatterns : List (String × List String) :=
  [("canada", ["canada", "canadian"]),
   ("usa", ["usa", "us", "united states", "america", "u.s.", "u.s.a."]),
   ("india", ["india", "indian", "domestic"]),
   ("sri lanka", ["sri lanka", "sri lankan"]),
   ("bangladesh", ["bangladesh"]),
   ("nepal", ["nepal"]),
   ("maldives", ["maldives"]),
   ("australia", ["australia"]),
   ("europe", ["europe", "european", "uk", "france", "germany"]),
   ("japan", ["japan"]),
   ("south korea", ["south korea", "korea"])]

/-- Regex `\b`: a word boundary sits between two (optional) characters iff
exactly one of them is a word character. -/
def wbBoundary (a b : Option Char) : Bool :=
  (match a with | none => false | some c => pyIsWordChar c) !=
  (match b with | none => false | some c => pyIsWordChar c)

/-- Match of `\b<phrase>\b` at the current position (`prev` = preceding
character). -/
def wbMatchAt (prev : Option Char) (phrase s : List Char) : Bool :=
  phrase.isPrefixOf s && wbBoundary prev s.head? &&
  wbBoundary phrase.getLast? (s.drop phrase.length).head?

/-- `re.search(r"\b<phrase>\b", s)` as a boolean. -/
def wbSearch (phrase : List Char) : Option Char → List Char → Bool
  | _, [] => false
  | prev, c :: t => wbMatchAt prev phrase (c :: t) || wbSearch phrase (some c) t

/-- Whole-word containment of a phrase in a character list. -/
def wbContains (phrase : String) (s : List Char) : Bool :=
  wbSearch phrase.toList none s

/-- `_extract_country_from_query` (lines 163-176): first country whose
pattern list has a match in the lowercased query. -/
def extractCountryFromQuery (query : String) : Option String :=
  let query_lower := pyLower query.toList
  countryPatterns.findSome? fun p =>
    if p.2.any (fun ph => wbContains ph query_lower) then some p.1 else none

/-- `[country.split()[0] if ' ' in country else country]` (line 198). -/
def countryKeywords (country : String) : List String :=
  if country.toList.contains ' ' then
    [String.mk (country.toList.takeWhile (· ≠ ' '))]
  else [country]

/-- Line 192: `doc.metadata.get('countries_mentioned', '').lower()`. -/
def docCountries (d : Document) : List Char :=
  pyLower (d.metadata.countries_mentioned.getD "").toList

/-- Line 194: `not countries_mentioned or countries_mentioned == 'none'`. -/
def noCountryTag (d : Document) : Bool :=
  (docCountries d).isEmpty || docCountries d = "none".toList

/-- Line 196: `country in countries_mentioned`. -/
def countryTagged (country : String) (d : Document) : Bool :=
  containsSub country.toList (docCountries d)

/-- Line 198: `any(keyword in countries_mentioned for keyword in [...])`. -/
def keywordTagged (country : String) (d : Document) : Bool :=
  (countryKeywords country).any (fun k => containsSub k.toList (docCountries d))

/-- The loop of `_filter_by_country` (lines 191-201), routing each document
to the exact / partial / no-match tier by the `if/elif/else` chain. -/
def partition3 (country : String) : List Document →
    List Document × List Document × List Document
  | [] => ([], [], [])
  | doc :: t =>
    let (e, p, n) := partition3 country t
    if noCountryTag doc then (e, p, doc :: n)
    else if countryTagged country doc then (doc :: e, p, n)
    else if keywordTagged country doc then (e, doc :: p, n)
    else (e, p, doc :: n)

/-- `_filter_by_country` (lines 178-204): concatenate the tiers, exact
matches first. -/
def filterByCountry (documents : List Document) (country : String) :
    List Document :=
  if documents.isEmpty then []
  else
    let (exact_matches, partial_matches, no_match) := partition3 country documents
    exact_matches ++ partial_matches ++ no_match

/-- `_filter_by_content_type` (lines 206-214); a falsy (absent or empty)
content type and an empty filter result both leave the list unchanged. -/
def filterByContentType (documents : List Document)
    (content_type : Option String) : List Document :=
  match content_type with
  | none => documents
  | some ct =>
    if ct.isEmpty || documents.isEmpty then documents
    else
      let filtered := documents.filter
        (fun d => pyLower (d.metadata.content_type.getD "").toList = pyLower ct.toList)
      if filtered.isEmpty then documents else filtered

/-- Python `k = k or self.k_results`: `None` and `0` are falsy and are
replaced by the default. -/
def pyOrNat (k : Option Nat) (default : Nat) : Nat :=
  match k with
  | some n => if n = 0 then default else n
  | none => default

/-- Lines 258-272 of `search`: apply the country filter, then the content
type filter, then truncate to `k`. -/
def searchFinalDocs (all_documents : List Document) (country : Option String)
    (kEff : Nat) (filter_by_type : Option String) : List Document :=
  let filtered := all_documents
  let filtered :=
    match country with
    | some c => filterByCountry filtered c
    | none => filtered
  let filtered := filterByContentType filtered filter_by_type
  filtered.take kEff

/-- One entry of the formatted result list (lines 277-286); the Python key
`"type"` is rendered as `doc_type`. -/
structure FormattedDoc where
  id : Nat
  content : String
  metadata : DocMetadata
  source : String
  doc_type : String
  countries : String
deriving DecidableEq, Repr

/-- Formatting of one result document (lines 278-286). -/
def formatDoc (i : Nat) (doc : Document) : FormattedDoc :=
  { id := i + 1
    content :=
      if doc.page_content.toList.length > 500 then
        String.mk (doc.page_content.toList.take 500) ++ "..."
      else doc.page_content
    metadata := doc.metadata
    source := doc.metadata.filename.getD "Unknown"
    doc_type := doc.metadata.content_type.getD "general"
    countries := doc.metadata.countries_mentioned.getD "none" }

/-- The result dictionary of `search`.  Keys a branch does not set are
`none`; `country_filter`/`content_type_filter` hold `some v` when the key
is present with (possibly null) value `v`.  The `timestamp` key
(`datetime.now()`) is an external effect and is omitted. -/
structure SearchResult where
  success : Bool
  error : Option String := none
  found : Bool
  documents : List FormattedDoc := []
  count : Nat
  query : Option String := none
  country_filter : Option (Option String) := none
  content_type_filter : Option (Option String) := none
deriving DecidableEq, Repr

/-- `SimpleRAGHandler.search` (lines 216-307).  The external vector store
is the `sim` argument: `.ok docs` models `similarity_search` returning
`docs`, `.error e` models it raising an exception with message `e`, which
the `except` clause (lines 299-307) converts into a failure dictionary. -/
def ragSearch (is_initialized : Bool) (sim : Except String (List Document))
    (query : String) (k : Option Nat) (filter_by_type : Option String) :
    SearchResult :=
  if !is_initialized then
    { success := false
      error := some "RAG not initialized"
      found := false
      documents := []
      count := 0 }
  else
    match sim with
    | .error e =>
      { success := false
        error := some e
        found := false
        documents := []
        count := 0 }
    | .ok all_documents =>
      let country := extractCountryFromQuery query
      let kEff := pyOrNat k 5
      if all_documents.isEmpty then
        { success := true
          found := false
          documents := []
          count := 0
          query := some query
          country_filter := some country }
      else
        let final_documents := searchFinalDocs all_documents country kEff filter_by_type
        { success := true
          found := true
          documents := final_documents.enum.map (fun p => formatDoc p.1 p.2)
          count := final_documents.length
          query := some query
          country_filter := some country
          content_type_filter := some filter_by_type }

/-! ### Driver for the history claims -/

/-- The message `add_message(role, content)` constructs when no intent and
no parameters are passed. -/
def mkUserMessage (rc : String × String) : Message :=
  { role := rc.1, content := rc.2 }

/-- Add a sequence of `(role, content)` messages with no intent. -/
def addMessagesNoIntent (ctx : ConversationContext)
    (msgs : List (String × String)) : ConversationContext :=
  msgs.foldl (fun c m => addMessage c m.1 m.2 none none) ctx

/-! ### Tier predicates for the country filter

These spell out, as standalone predicates, which tier of
`_filter_by_country`'s `if/elif/else` chain a document lands in, so that
the loop can be characterised as three order-preserving `filter`s. -/

/-- Membership in the `exact_matches` tier. -/
def exactTier (country : String) (d : Document) : Bool :=
  !noCountryTag d && countryTagged country d

/-- Membership in the `partial_matches` tier. -/
def partialTier (country : String) (d : Document) : Bool :=
  !noCountryTag d && !countryTagged country d && keywordTagged country d

/-- Membership in the `no_match` tier. -/
def noMatchTier (country : String) (d : Document) : Bool :=
  !exactTier country d && !partialTier country d

/-- A candidate document whose metadata tags Canada. -/
def docCanada : Document :=
  { page_content := "Baggage allowance on Canada routes"
    metadata := { countries_mentioned := some "canada"
                  content_type := some "baggage_table"
                  filename := some "canada_baggage.md" } }

/-- A candidate document with no country tag. -/
def docGeneral : Document :=
  { page_content := "General checked baggage rules", metadata := {} }

/-! ## Helper lemmas -/

theorem pyIsDigit_pyLowerChar (c : Char) :
    pyIsDigit (pyLowerChar c) = pyIsDigit c := by
  unfold pyLowerChar
  split <;> rfl

theorem pyIsDigit_pyUpperChar (c : Char) :
    pyIsDigit (pyUpperChar c) = pyIsDigit c := by
  unfold pyUpperChar
  split <;> rfl

theorem pyTimeHour_eq_none {s : List Char}
    (h : ∀ c ∈ s, pyIsDigit c = false) : pyTimeHour s = none := by
  induction s with
  | nil => rfl
  | cons c t ih =>
    unfold pyTimeHour
    rw [h c (List.mem_cons_self c t)]
    simp only [Bool.false_eq_true, if_false]
    exact ih (fun x hx => h x (List.mem_cons_of_mem c hx))

theorem spacesThenDigits_eq_none {s : List Char}
    (h : ∀ c ∈ s, pyIsDigit c = false) : spacesThenDigits s = none := by
  have hdrop : ∀ c ∈ s.drop (s.takeWhile pyIsSpace).length, pyIsDigit c = false :=
    fun c hc => h c (List.drop_subset _ s hc)
  have hTW : (s.drop (s.takeWhile pyIsSpace).length).takeWhile pyIsDigit = [] := by
    cases hrest : s.drop (s.takeWhile pyIsSpace).length with
    | nil => rfl
    | cons r t =>
      have hr : pyIsDigit r = false := by
        apply hdrop
        rw [hrest]
        exact List.mem_cons_self r t
      simp [List.takeWhile_cons, hr]
  simp [spacesThenDigits, hTW]

theorem flightNumMatchAt_eq_none {s : List Char}
    (h : ∀ c ∈ s, pyIsDigit c = false) : flightNumMatchAt s = none := by
  unfold flightNumMatchAt
  split
  · rename_i rest
    have hrest : ∀ c ∈ rest, pyIsDigit c = false := by
      intro c hc
      exact h c (List.mem_cons_of_mem _ (List.mem_cons_of_mem _ hc))
    rw [spacesThenDigits_eq_none hrest]
    cases rest with
    | nil => rfl
    | cons x t =>
      by_cases hX : x = 'X'
      · subst hX
        have ht : ∀ c ∈ t, pyIsDigit c = false :=
          fun c hc => hrest c (List.mem_cons_of_mem _ hc)
        simp [spacesThenDigits_eq_none ht]
      · simp [hX]
  · rfl

theorem pyFlightNumSearch_eq_none {s : List Char}
    (h : ∀ c ∈ s, pyIsDigit c = false) : pyFlightNumSearch s = none := by
  induction s with
  | nil => rfl
  | cons c t ih =>
    unfold pyFlightNumSearch
    rw [flightNumMatchAt_eq_none h]
    exact ih (fun x hx => h x (List.mem_cons_of_mem c hx))

theorem ordinalLookup_eq_none {ml : List Char} {results : List Flight}
    {lst : List (String × Int)}
    (h : ∀ p ∈ lst, containsSub p.1.toList ml = false) :
    ordinalLookup ml results lst = none := by
  induction lst with
  | nil => rfl
  | cons p rest ih =>
    unfold ordinalLookup
    rw [h p (List.mem_cons_self p rest)]
    simp only [Bool.false_eq_true, if_false]
    exact ih (fun q hq => h q (List.mem_cons_of_mem p hq))

theorem noDigit_pyUpper_of_pyLower {l : List Char}
    (h : ∀ c ∈ pyLower l, pyIsDigit c = false) :
    ∀ c ∈ pyUpper l, pyIsDigit c = false := by
  intro c hc
  obtain ⟨x, hx, rfl⟩ := List.mem_map.mp hc
  rw [pyIsDigit_pyUpperChar]
  have hlow := h (pyLowerChar x) (List.mem_map_of_mem _ hx)
  rwa [pyIsDigit_pyLowerChar] at hlow

theorem applyDate_origin (tl : List Char) (p : SearchParameters) :
    (applyDate tl p).origin = p.origin := by
  unfold applyDate
  (repeat' split) <;> rfl

theorem applyDate_destination (tl : List Char) (p : SearchParameters) :
    (applyDate tl p).destination = p.destination := by
  unfold applyDate
  (repeat' split) <;> rfl

theorem applyDate_passengers (tl : List Char) (p : SearchParameters) :
    (applyDate tl p).passengers = p.passengers := by
  unfold applyDate
  (repeat' split) <;> rfl

theorem applyPassengers_origin (tl : List Char) (p : SearchParameters) :
    (applyPassengers tl p).origin = p.origin := by
  unfold applyPassengers
  (repeat' split) <;> rfl

theorem applyPassengers_destination (tl : List Char) (p : SearchParameters) :
    (applyPassengers tl p).destination = p.destination := by
  unfold applyPassengers
  (repeat' split) <;> rfl

theorem applyPassengers_passengers (tl : List Char) (p : SearchParameters) :
    (applyPassengers tl p).passengers =
      (match pyPassengerSearch tl with
       | some ds =>
         if 1 ≤ digitsToNat ds ∧ digitsToNat ds ≤ 9 then digitsToNat ds
         else p.passengers
       | none => p.passengers) := by
  unfold applyPassengers
  (repeat' split) <;> rfl

theorem assignRoute_paired (pair : Option String × Option String) :
    (assignRoute pair).origin.isSome = (assignRoute pair).destination.isSome := by
  unfold assignRoute
  (repeat' split) <;> rfl

theorem assignRoute_passengers (pair : Option String × Option String) :
    (assignRoute pair).passengers = 1 := by
  unfold assignRoute
  (repeat' split) <;> rfl

theorem buildResponse_wellFormed (i : IntentType) (q : ℚ) (p : ResponseParams)
    (reason : String) (h0 : 0 ≤ q) (h1 : q ≤ 1) :
    wellFormedResponse (buildResponse i q p reason) := by
  refine ⟨⟨h0, h1⟩, ?_, rfl⟩
  cases i <;> simp [buildResponse, IntentType.value]

theorem detectStep6_wellFormed : wellFormedResponse detectStep6 :=
  buildResponse_wellFormed _ _ _ _ (by norm_num) (by norm_num)

theorem detectStep5_wellFormed (u : Bool) :
    wellFormedResponse (detectStep5 u) := by
  unfold detectStep5
  split <;> exact detectStep6_wellFormed

theorem detectStep4_wellFormed (u : Bool) (m : String) :
    wellFormedResponse (detectStep4 u m) := by
  unfold detectStep4
  split
  · exact buildResponse_wellFormed _ _ _ _ (by norm_num) (by norm_num)
  · exact detectStep5_wellFormed u

theorem detectRule4_wellFormed (sig : DetectSignals) (u : Bool) (m : String)
    (ml : List Char) : wellFormedResponse (detectRule4 sig u m ml) := by
  unfold detectRule4
  split
  · exact buildResponse_wellFormed _ _ _ _ (by norm_num) (by norm_num)
  · exact detectStep4_wellFormed u m

theorem detectRule3_wellFormed (sig : DetectSignals) (u : Bool) (m : String)
    (ml : List Char) : wellFormedResponse (detectRule3 sig u m ml) := by
  unfold detectRule3
  split
  · exact buildResponse_wellFormed _ _ _ _ (by norm_num) (by norm_num)
  · exact detectRule4_wellFormed sig u m ml

theorem detectRule2_wellFormed (sig : DetectSignals) (u : Bool) (m : String)
    (ml : List Char) : wellFormedResponse (detectRule2 sig u m ml) := by
  unfold detectRule2
  repeat' split
  all_goals first
    | exact buildResponse_wellFormed _ _ _ _ (by norm_num) (by norm_num)
    | exact detectRule3_wellFormed sig u m ml

theorem detectRule1_wellFormed (sig : DetectSignals) (u : Bool) (m : String)
    (ml : List Char) : wellFormedResponse (detectRule1 sig u m ml) := by
  unfold detectRule1
  split
  · exact buildResponse_wellFormed _ _ _ _ (by norm_num) (by norm_num)
  · exact detectRule2_wellFormed sig u m ml

theorem detectStep2_wellFormed (sig : DetectSignals) (u : Bool)
    (context : Option ConversationContext) (m : String) (ml : List Char) :
    wellFormedResponse (detectStep2 sig u context m ml) := by
  unfold detectStep2
  repeat' split
  all_goals first
    | exact buildResponse_wellFormed _ _ _ _ (by norm_num) (by norm_num)
    | exact detectRule1_wellFormed sig u m ml

theorem trim_eq_pySliceLast (N : Nat) (l : List α) :
    (if l.length > N then pySliceLast N l else l) = pySliceLast N l := by
  split
  · rfl
  · rename_i h
    unfold pySliceLast
    split
    · rfl
    · have h0 : l.length - N = 0 := by omega
      rw [h0, List.drop_zero]

theorem pySliceLast_le_length {N : Nat} (hN : 1 ≤ N) (l : List α) :
    (pySliceLast N l).length ≤ N := by
  unfold pySliceLast
  rw [if_neg (by omega)]
  rw [List.length_drop]
  omega

theorem pySliceLast_of_le {N : Nat} {l : List α} (hN : 1 ≤ N)
    (h : l.length ≤ N) : pySliceLast N l = l := by
  unfold pySliceLast
  rw [if_neg (by omega)]
  have h0 : l.length - N = 0 := by omega
  rw [h0, List.drop_zero]

theorem pySliceLast_append {N : Nat} (hN : 1 ≤ N) (l t : List α) :
    pySliceLast N (pySliceLast N l ++ t) = pySliceLast N (l ++ t) := by
  by_cases hl : l.length ≤ N
  · rw [pySliceLast_of_le hN hl]
  · push_neg at hl
    unfold pySliceLast
    rw [if_neg (by omega), if_neg (by omega), if_neg (by omega)]
    have hd : l.length - N ≤ l.length := by omega
    rw [← List.drop_append_of_le_length hd, List.drop_drop]
    congr 1
    simp only [List.length_drop, List.length_append]
    omega

theorem addMessage_none_history (ctx : ConversationContext)
    (r c : String) (p : Option PyDict) (now : Nat) :
    (addMessage ctx r c none p now).history =
      pySliceLast ctx.max_history
        (ctx.history ++ [{ role := r, content := c, parameters := p, timestamp := now }]) := by
  unfold addMessage
  simp only []
  rw [trim_eq_pySliceLast]

theorem addMessage_none_max_history (ctx : ConversationContext)
    (r c : String) (p : Option PyDict) (now : Nat) :
    (addMessage ctx r c none p now).max_history = ctx.max_history := rfl

theorem addMessagesNoIntent_history (msgs : List (String × String)) :
    ∀ ctx : ConversationContext, 1 ≤ ctx.max_history →
    ctx.history.length ≤ ctx.max_history →
    (addMessagesNoIntent ctx msgs).history =
      pySliceLast ctx.max_history (ctx.history ++ msgs.map mkUserMessage) := by
  induction msgs with
  | nil =>
    intro ctx h1 h2
    rw [addMessagesNoIntent, List.foldl_nil, List.map_nil, List.append_nil]
    exact (pySliceLast_of_le h1 h2).symm
  | cons m ms ih =>
    intro ctx h1 h2
    have hstep : addMessagesNoIntent ctx (m :: ms) =
        addMessagesNoIntent (addMessage ctx m.1 m.2 none none 0) ms := by
      rw [addMessagesNoIntent, addMessagesNoIntent, List.foldl_cons]
    rw [hstep]
    have hmax := addMessage_none_max_history ctx m.1 m.2 none 0
    have hhist := addMessage_none_history ctx m.1 m.2 none 0
    have hlen : (addMessage ctx m.1 m.2 none none 0).history.length ≤
        (addMessage ctx m.1 m.2 none none 0).max_history := by
      rw [hhist, hmax]
      exact pySliceLast_le_length h1 _
    have := ih (addMessage ctx m.1 m.2 none none 0) (by rw [hmax]; exact h1) hlen
    rw [this, hhist, hmax, pySliceLast_append h1, List.map_cons]
    rw [List.append_cons ctx.history (mkUserMessage m) (ms.map mkUserMessage)]
    rfl

theorem partition3_eq (country : String) (docs : List Document) :
    partition3 country docs =
      (docs.filter (exactTier country), docs.filter (partialTier country),
       docs.filter (noMatchTier country)) := by
  induction docs with
  | nil => rfl
  | cons d t ih =>
    unfold partition3
    rw [ih]
    dsimp only
    cases h1 : noCountryTag d
    · cases h2 : countryTagged country d
      · cases h3 : keywordTagged country d <;>
          simp [List.filter_cons, exactTier, partialTier, noMatchTier, h1, h2, h3]
      · simp [List.filter_cons, exactTier, partialTier, noMatchTier, h1, h2]
    · simp [List.filter_cons, exactTier, partialTier, noMatchTier, h1]

theorem filterByCountry_eq (country : String) (docs : List Document) :
    filterByCountry docs country =
      docs.filter (exactTier country) ++ docs.filter (partialTier country) ++
        docs.filter (noMatchTier country) := by
  cases docs with
  | nil => rfl
  | cons d t => simp [filterByCountry, partition3_eq]

theorem partialTier_canada (d : Document) : partialTier "canada" d = false := by
  unfold partialTier keywordTagged
  have hkw : countryKeywords "canada" = ["canada"] := rfl
  rw [hkw]
  simp only [List.any_cons, List.any_nil, Bool.or_false]
  unfold countryTagged
  cases h : containsSub "canada".toList (docCountries d)
  · simp
  · simp

theorem countryTagged_canada_exact {d : Document}
    (h : countryTagged "canada" d = true) : exactTier "canada" d = true := by
  have hne : noCountryTag d = false := by
    unfold noCountryTag
    unfold countryTagged at h
    cases hcm : docCountries d with
    | nil => rw [hcm] at h; exact absurd h (by decide)
    | cons c t =>
      rw [hcm] at h
      by_cases hn : c :: t = "none".toList
      · rw [hn] at h; exact absurd h (by decide)
      · simp only [List.isEmpty_cons, Bool.false_or]
        exact decide_eq_false hn
  unfold exactTier
  rw [hne, h]
  rfl

theorem noCountryTag_not_canadaTagged {d : Document}
    (h : noCountryTag d = true) : countryTagged "canada" d = false := by
  cases htag : countryTagged "canada" d
  · rfl
  · have hex := countryTagged_canada_exact htag
    unfold exactTier at hex
    rw [h] at hex
    simp at hex

theorem exactTier_not_noTag {c : String} {d : Document}
    (h : exactTier c d = true) : noCountryTag d = false := by
  unfold exactTier at h
  rw [Bool.and_eq_true] at h
  simpa using h.1

theorem noMatchTier_not_canadaTagged {d : Document}
    (h : noMatchTier "canada" d = true) : countryTagged "canada" d = false := by
  cases htag : countryTagged "canada" d
  · rfl
  · have hex := countryTagged_canada_exact htag
    unfold noMatchTier at h
    rw [hex] at h
    simp at h

theorem take_append_order {α : Type} (A C : List α) (kr : Nat)
    (P Q : α → Bool)
    (hA : ∀ d ∈ A, P d = true) (hC : ∀ d ∈ C, Q d = true)
    (i j : Nat) (hi : i < ((A ++ C).take kr).length)
    (hj : j < ((A ++ C).take kr).length) (hij : i < j) :
    P (((A ++ C).take kr).get ⟨i, hi⟩) = true ∨
      Q (((A ++ C).take kr).get ⟨j, hj⟩) = true := by
  have hi' : i < (A ++ C).length := by
    rw [List.length_take] at hi
    omega
  have hj' : j < (A ++ C).length := by
    rw [List.length_take] at hj
    omega
  have hgi : ((A ++ C).take kr).get ⟨i, hi⟩ = (A ++ C).get ⟨i, hi'⟩ := by
    rw [List.get_eq_getElem, List.get_eq_getElem]
    exact List.getElem_take _
  have hgj : ((A ++ C).take kr).get ⟨j, hj⟩ = (A ++ C).get ⟨j, hj'⟩ := by
    rw [List.get_eq_getElem, List.get_eq_getElem]
    exact List.getElem_take _
  by_cases hiA : i < A.length
  · left
    have hga : (A ++ C).get ⟨i, hi'⟩ = A.get ⟨i, hiA⟩ := by
      rw [List.get_eq_getElem, List.get_eq_getElem]
      exact List.getElem_append_left hiA
    rw [hgi, hga]
    exact hA _ (List.get_mem A i hiA)
  · right
    have hjA : A.length ≤ j := by omega
    have hjC : j - A.length < C.length := by
      rw [List.length_append] at hj'
      omega
    have hgc : (A ++ C).get ⟨j, hj'⟩ = C.get ⟨j - A.length, hjC⟩ := by
      rw [List.get_eq_getElem, List.get_eq_getElem]
      exact List.getElem_append_right hjA
    rw [hgj, hgc]
    exact hC _ (List.get_mem C _ hjC)

theorem ragSearch_ok_count (candidates : List Document) (query : String)
    (k : Option Nat) (fbt : Option String) (h : candidates.isEmpty = false) :
    (ragSearch true (.ok candidates) query k fbt).count =
      (searchFinalDocs candidates (extractCountryFromQuery query)
        (pyOrNat k 5) fbt).length := by
  unfold ragSearch
  dsimp only
  rw [h]
  rfl

/-! ## Claims -/

/-- C1: for every input string (including empty/whitespace-only ones) and
every outcome of the external pattern/keyword scans, `detect_intent`
returns a fully populated response whose confidence lies in `[0, 1]` and
whose intent is one of the four closed enum values; the embedding is a
total function, matching the source in which every branch returns via
`_build_response` and none raises. -/
theorem C1_detect_intent_safe (sig : DetectSignals) (use_llm_fallback : Bool)
    (context : Option ConversationContext) (user_message : String) :
    (0 ≤ (detectIntent sig use_llm_fallback context user_message).confidence ∧
      (detectIntent sig use_llm_fallback context user_message).confidence ≤ 1) ∧
    ((detectIntent sig use_llm_fallback context user_message).intent = "flight_search" ∨
      (detectIntent sig use_llm_fallback context user_message).intent = "policy_question" ∨
      (detectIntent sig use_llm_fallback context user_message).intent = "general_chat" ∨
      (detectIntent sig use_llm_fallback context user_message).intent = "unknown") ∧
    (detectIntent sig use_llm_fallback context user_message).success = true := by
  show wellFormedResponse (detectIntent sig use_llm_fallback context user_message)
  unfold detectIntent
  dsimp only
  repeat' split
  all_goals first
    | exact buildResponse_wellFormed _ _ _ _ (by norm_num) (by norm_num)
    | exact detectStep2_wellFormed sig use_llm_fallback context _ _

/-- C2: with `last_flight_results = [F0 ("09:30"), F1 ("12:15")]`, the
message `"what about the 9:30 flight"` does NOT resolve (the extracted
hour `"9"` is compared by `startswith` against the zero-padded `"09:30"`,
so no flight matches and every later branch also misses), contradicting
the claim and the function's own docstring example; the ordinal messages
`"the first one"` and `"the last one"` resolve to F0 and F1 as claimed. -/
theorem C2_resolve_reference_eval :
    (resolveReference ctxTwoFlights "what about the 9:30 flight").has_reference = false ∧
    resolveReference ctxTwoFlights "the first one" =
      { has_reference := true, reference_type := some "ordinal",
        referenced_flight := some flight0930, flight_number := some "AI 101",
        ordinal := some "first" } ∧
    resolveReference ctxTwoFlights "the last one" =
      { has_reference := true, reference_type := some "ordinal",
        referenced_flight := some flight1215, flight_number := some "AI 202",
        ordinal := some "last" } := by decide

/-- C3: whenever `last_flight_results` is empty, `resolve_reference`
returns `has_reference = false` for every message (the no-op guard at
lines 144-145 fires before any pattern is inspected). -/
theorem C3_empty_results_no_reference (ctx : ConversationContext)
    (message : String) (h : ctx.last_flight_results = []) :
    (resolveReference ctx message).has_reference = false := by
  unfold resolveReference
  rw [h]
  rfl

/-- Witness for C3 at a concrete empty context and message. -/
theorem C3_empty_results_no_reference_witness :
    ({} : ConversationContext).last_flight_results = [] ∧
    (resolveReference {} "what about the first flight at 9:30?").has_reference = false :=
  ⟨rfl, C3_empty_results_no_reference {} "what about the first flight at 9:30?" rfl⟩

/-- C5 (amended: for `max_history = N ≥ 1`): starting from a fresh context
with `max_history = N`, adding `N + 1` messages leaves exactly the last
`N` messages, in insertion order — the evicted message is the oldest. -/
theorem C5_history_fifo (N : Nat) (hN : 1 ≤ N)
    (msgs : List (String × String)) (hlen : msgs.length = N + 1) :
    (addMessagesNoIntent { max_history := N } msgs).history.length = N ∧
    (addMessagesNoIntent { max_history := N } msgs).history =
      (msgs.map mkUserMessage).drop 1 := by
  have h := addMessagesNoIntent_history msgs { max_history := N } hN (by simp)
  have h' : (addMessagesNoIntent { max_history := N } msgs).history =
      pySliceLast N (msgs.map mkUserMessage) := by simpa using h
  have hlen' : (msgs.map mkUserMessage).length = N + 1 := by
    rw [List.length_map, hlen]
  have hdrop : (msgs.map mkUserMessage).length - N = 1 := by omega
  have hslice : pySliceLast N (msgs.map mkUserMessage) =
      (msgs.map mkUserMessage).drop 1 := by
    unfold pySliceLast
    rw [if_neg (by omega), hdrop]
  refine ⟨?_, by rw [h', hslice]⟩
  rw [h', hslice, List.length_drop, hlen']
  omega

/-- C5 counterexample at `max_history = 0`: Python's `history[-0:]` is the
whole list, so after adding `0 + 1` messages the history has length 1,
not `max_history = 0` as the claim (quantified over every context) states. -/
theorem C5_history_fifo_counterexample :
    (addMessagesNoIntent { max_history := 0 } [("user", "hello")]).history.length ≠ 0 := by
  decide

/-- Witness for C5 with `N = 2` and three concrete messages. -/
theorem C5_history_fifo_witness :
    1 ≤ 2 ∧
    ([("user", "a"), ("assistant", "b"), ("user", "c")] : List (String × String)).length = 2 + 1 ∧
    ((addMessagesNoIntent { max_history := 2 }
        [("user", "a"), ("assistant", "b"), ("user", "c")]).history.length = 2 ∧
     (addMessagesNoIntent { max_history := 2 }
        [("user", "a"), ("assistant", "b"), ("user", "c")]).history =
      ([("user", "a"), ("assistant", "b"), ("user", "c")].map mkUserMessage).drop 1) :=
  ⟨by decide, by decide,
   C5_history_fifo 2 (by decide) [("user", "a"), ("assistant", "b"), ("user", "c")] (by decide)⟩

/-- C9: with non-empty results, a message whose lowercase form contains no
digit, none of the ordinal words, but some generic substring ("that",
"it", "this", "the flight" — plain substring, even inside a longer word),
resolves generically to the first flight of `last_flight_results`. -/
theorem C9_generic_substring_reference (ctx : ConversationContext)
    (message : String)
    (h1 : ctx.last_flight_results ≠ [])
    (h2 : ∀ c ∈ pyLower message.toList, pyIsDigit c = false)
    (h3 : ∀ p ∈ ordinalMap, containsSub p.1.toList (pyLower message.toList) = false)
    (h4 : genericRefs.any
      (fun r => containsSub r.toList (pyLower message.toList)) = true) :
    resolveReference ctx message =
      { has_reference := true, reference_type := some "generic",
        referenced_flight := some ctx.last_flight_results.head!,
        flight_number := some ctx.last_flight_results.head!.flight_number } := by
  have hne : ctx.last_flight_results.isEmpty = false := by
    cases hres : ctx.last_flight_results with
    | nil => exact absurd hres h1
    | cons f t => rfl
  unfold resolveReference
  simp only [pyTimeHour_eq_none h2, ordinalLookup_eq_none h3,
    pyFlightNumSearch_eq_none (noDigit_pyUpper_of_pyLower h2), h4, hne]
  simp

/-- Witness for C9: the message `"with"` contains `"it"` as a plain
substring, and resolves to the sole flight. -/
theorem C9_generic_substring_reference_witness :
    ({ last_flight_results := [flight0930] } : ConversationContext).last_flight_results ≠ [] ∧
    (∀ c ∈ pyLower ("with" : String).toList, pyIsDigit c = false) ∧
    (∀ p ∈ ordinalMap, containsSub p.1.toList (pyLower ("with" : String).toList) = false) ∧
    genericRefs.any (fun r => containsSub r.toList (pyLower ("with" : String).toList)) = true ∧
    resolveReference { last_flight_results := [flight0930] } "with" =
      { has_reference := true, reference_type := some "generic",
        referenced_flight := some ([flight0930].head!),
        flight_number := some ([flight0930].head!).flight_number } :=
  ⟨by decide, by decide, by decide, by decide,
   C9_generic_substring_reference { last_flight_results := [flight0930] } "with"
     (by decide) (by decide) (by decide) (by decide)⟩

/-- C10: `add_message` with `intent = None` only modifies `history` —
the new message (with the given role, content and parameters) is appended
and the usual window trim applied; `last_intent`, `last_parameters`,
`current_flight_search`, `last_flight_results` (and the identity fields)
are untouched, and below the window cap the history is exactly the old
history plus the one new message. -/
theorem C10_add_message_none_frame (ctx : ConversationContext)
    (role content : String) (parameters : Option PyDict) (now : Nat) :
    (addMessage ctx role content none parameters now).session_id = ctx.session_id ∧
    (addMessage ctx role content none parameters now).max_history = ctx.max_history ∧
    (addMessage ctx role content none parameters now).current_flight_search =
      ctx.current_flight_search ∧
    (addMessage ctx role content none parameters now).last_intent = ctx.last_intent ∧
    (addMessage ctx role content none parameters now).last_parameters =
      ctx.last_parameters ∧
    (addMessage ctx role content none parameters now).last_flight_results =
      ctx.last_flight_results ∧
    (addMessage ctx role content none parameters now).history =
      pySliceLast ctx.max_history (ctx.history ++
        [{ role := role, content := content, parameters := parameters,
           timestamp := now }]) ∧
    (ctx.history.length < ctx.max_history →
      (addMessage ctx role content none parameters now).history =
        ctx.history ++
          [{ role := role, content := content, parameters := parameters,
             timestamp := now }]) := by
  refine ⟨rfl, rfl, rfl, rfl, rfl, rfl,
    addMessage_none_history ctx role content parameters now, ?_⟩
  intro hlt
  rw [addMessage_none_history ctx role content parameters now]
  apply pySliceLast_of_le (by omega)
  rw [List.length_append]
  simp only [List.length_cons, List.length_nil]
  omega

/-- Witness for C10 at a concrete context below its window cap. -/
theorem C10_add_message_none_frame_witness :
    ({ max_history := 10 } : ConversationContext).history.length < 10 ∧
    (addMessage { max_history := 10 } "user" "hi" none none 7).last_intent = none ∧
    (addMessage { max_history := 10 } "user" "hi" none none 7).history =
      [] ++ [{ role := "user", content := "hi", parameters := none, timestamp := 7 }] := by
  have h := C10_add_message_none_frame { max_history := 10 } "user" "hi" none 7
  exact ⟨by decide, h.2.2.2.1, h.2.2.2.2.2.2.2 (by decide)⟩

/-- C4 (amended: for requested `k ≥ 1`): when the query's country
detection yields `"canada"` and the candidates contain both Canada-tagged
and untagged documents, the returned documents are the three
`_filter_by_country` tiers concatenated (each a `filter` of the
candidates, hence keeping its original relative order), truncated to `k`;
consequently no untagged document ever precedes a Canada-tagged one, and
the returned count never exceeds `k`.  (For `k = 0`, Python's
`k = k or self.k_results` replaces the request by the default 5 — see the
counterexample.) -/
theorem C4_canada_tier_order (query : String) (candidates : List Document)
    (kr : Nat)
    (hq : extractCountryFromQuery query = some "canada")
    (hk : 1 ≤ kr)
    (htagged : ∃ d ∈ candidates, countryTagged "canada" d = true)
    (huntagged : ∃ d ∈ candidates, noCountryTag d = true) :
    (ragSearch true (.ok candidates) query (some kr) none).count ≤ kr ∧
    searchFinalDocs candidates (some "canada") kr none =
      (candidates.filter (exactTier "canada") ++
        candidates.filter (partialTier "canada") ++
        candidates.filter (noMatchTier "canada")).take kr ∧
    (∀ i j : Nat,
      ∀ hi : i < (searchFinalDocs candidates (some "canada") kr none).length,
      ∀ hj : j < (searchFinalDocs candidates (some "canada") kr none).length,
      i < j →
      noCountryTag ((searchFinalDocs candidates (some "canada") kr none).get ⟨i, hi⟩) = true →
      countryTagged "canada"
        ((searchFinalDocs candidates (some "canada") kr none).get ⟨j, hj⟩) = false) := by
  have hfinal : searchFinalDocs candidates (some "canada") kr none =
      (filterByCountry candidates "canada").take kr := rfl
  have hfc := filterByCountry_eq "canada" candidates
  have hB : candidates.filter (partialTier "canada") = [] := by
    rw [List.filter_eq_nil_iff]
    intro d _
    simp [partialTier_canada d]
  have hempty : candidates.isEmpty = false := by
    obtain ⟨d, hd, _⟩ := htagged
    cases candidates with
    | nil => cases hd
    | cons a t => rfl
  have hkeff : pyOrNat (some kr) 5 = kr := by
    show (if kr = 0 then 5 else kr) = kr
    rw [if_neg (by omega)]
  have hL : filterByCountry candidates "canada" =
      candidates.filter (exactTier "canada") ++
        candidates.filter (noMatchTier "canada") := by
    rw [hfc, hB]
    simp
  have hout : searchFinalDocs candidates (some "canada") kr none =
      (candidates.filter (exactTier "canada") ++
        candidates.filter (noMatchTier "canada")).take kr := by
    rw [hfinal, hL]
  refine ⟨?_, by rw [hfinal, hfc], ?_⟩
  · rw [ragSearch_ok_count candidates query (some kr) none hempty, hq, hkeff,
      hfinal]
    exact List.length_take_le kr _
  · intro i j hi hj hij huntag
    have hgi := List.get_of_eq hout ⟨i, hi⟩
    have hgj := List.get_of_eq hout ⟨j, hj⟩
    rw [hgi] at huntag
    rw [hgj]
    have horder := take_append_order (candidates.filter (exactTier "canada"))
      (candidates.filter (noMatchTier "canada")) kr (exactTier "canada")
      (noMatchTier "canada")
      (fun d hd => (List.mem_filter.mp hd).2)
      (fun d hd => (List.mem_filter.mp hd).2)
      i j (hout ▸ hi) (hout ▸ hj) hij
    rcases horder with hP | hQ
    · -- position i would sit in the exact tier, whose documents carry a
      -- country tag, contradicting `huntag`
      exfalso
      rw [exactTier_not_noTag hP] at huntag
      exact absurd huntag (by decide)
    · exact noMatchTier_not_canadaTagged hQ

/-- C4 counterexample at requested `k = 0`: Python's `k = k or 5` treats 0
as falsy, so a request for zero results returns up to five documents —
here 2 > 0 — violating "never exceeds the requested k" at `k = 0`. -/
theorem C4_counterexample_k_zero :
    extractCountryFromQuery "canada" = some "canada" ∧
    (ragSearch true (.ok [docCanada, docGeneral]) "canada" (some 0) none).count = 2 ∧
    ¬((ragSearch true (.ok [docCanada, docGeneral]) "canada" (some 0) none).count ≤ 0) := by
  decide

/-- Witness for C4 at a concrete query, candidate pair and `k = 1`. -/
theorem C4_canada_tier_order_witness :
    extractCountryFromQuery "baggage allowance for canada" = some "canada" ∧
    1 ≤ 1 ∧
    (∃ d ∈ [docCanada, docGeneral], countryTagged "canada" d = true) ∧
    (∃ d ∈ [docCanada, docGeneral], noCountryTag d = true) ∧
    ((ragSearch true (.ok [docCanada, docGeneral]) "baggage allowance for canada"
        (some 1) none).count ≤ 1 ∧
      searchFinalDocs [docCanada, docGeneral] (some "canada") 1 none =
        ([docCanada, docGeneral].filter (exactTier "canada") ++
          [docCanada, docGeneral].filter (partialTier "canada") ++
          [docCanada, docGeneral].filter (noMatchTier "canada")).take 1 ∧
      (∀ i j : Nat,
        ∀ hi : i < (searchFinalDocs [docCanada, docGeneral] (some "canada") 1 none).length,
        ∀ hj : j < (searchFinalDocs [docCanada, docGeneral] (some "canada") 1 none).length,
        i < j →
        noCountryTag ((searchFinalDocs [docCanada, docGeneral] (some "canada") 1 none).get ⟨i, hi⟩) = true →
        countryTagged "canada"
          ((searchFinalDocs [docCanada, docGeneral] (some "canada") 1 none).get ⟨j, hj⟩) = false)) :=
  ⟨by decide, by decide, by decide, by decide,
   C4_canada_tier_order "baggage allowance for canada" [docCanada, docGeneral] 1
     (by decide) (by decide) (by decide) (by decide)⟩

/-- C6: for every input text, the extracted parameters carry an origin iff
they carry a destination — the route pair is assigned only when both
endpoints were found (utils.py line 260), so extraction never produces
exactly one of the two. -/
theorem C6_origin_destination_paired (text : String) :
    (extractFlightParameters text).origin.isSome =
      (extractFlightParameters text).destination.isSome := by
  unfold extractFlightParameters
  dsimp only
  rw [applyPassengers_origin, applyPassengers_destination,
      applyDate_origin, applyDate_destination]
  exact assignRoute_paired _

/-- C7 (amended): the passenger count is taken from the first
`"<N> passenger/person/people/adult"` match and used only when it already
lies in `[1, 9]`; any out-of-range match is ignored and the default `1` is
kept — the value is not clamped. -/
theorem C7_passengers_in_range_or_default (text : String) :
    (extractFlightParameters text).passengers =
      (match pyPassengerSearch (pyLower text.toList) with
       | some ds =>
         if 1 ≤ digitsToNat ds ∧ digitsToNat ds ≤ 9 then digitsToNat ds else 1
       | none => 1) := by
  unfold extractFlightParameters
  dsimp only
  rw [applyPassengers_passengers, applyDate_passengers, assignRoute_passengers]

/-- C7 counterexample: `"12 passengers"` matches the regex with `N = 12`,
which is outside `[1, 9]`, so the result keeps the default `1` — not the
clamped `9` the claim states. -/
theorem C7_passengers_counterexample :
    (extractFlightParameters "12 passengers").passengers = 1 ∧
    (extractFlightParameters "12 passengers").passengers ≠ 9 := by decide

/-- C8: when the underlying `similarity_search` raises, `search` catches
the exception and returns `success = false` with empty documents and
count 0 instead of propagating it. -/
theorem C8_search_catches_collaborator_failure (e : String) (query : String)
    (k : Option Nat) (filter_by_type : Option String) :
    ragSearch true (.error e) query k filter_by_type =
      { success := false, error := some e, found := false, documents := [],
        count := 0 } := rfl

end Chatbot
